import Mathlib

/-!
Verification of the `RedisService` cache facade
(`src/redis/redis.service.ts` of the rental backend).

The service owns an optional connection handle (`client`), guards every
cache operation on the handle being present and open, converts every
transport error into the operation's "unavailable" result, and manages the
handle's lifecycle in `onModuleInit` / `onModuleDestroy`.

The embedding is shallow: the handle is an `Option Client`, the underlying
`redis` client library is a `Transport` record parametrised by a backend
state type, and each service method is a pure function that returns its
result together with the resulting service state, the resulting backend
state, the list of transport commands it issued, and the log events it
emitted.  Transport calls that can reject are modelled as `Except String`
values supplied through the `Transport` record (or, for lifecycle methods,
as explicit outcome parameters).
-/

namespace Rental

/-- A connection handle as the service observes it: the `redis` client's
`isOpen` introspection flag (`this.client?.isOpen`). -/
structure Client where
  isOpen : Bool
deriving Repr, DecidableEq

/-- The mutable fields of `RedisService`: `client : RedisClientType | null`
and the `isConnecting` flag. -/
structure RedisState where
  client : Option Client
  isConnecting : Bool
deriving Repr, DecidableEq

/-- The transport commands the service can issue to the `redis` client
(`setEx`, `set`, `get`, `del`, `exists`, `expire`, `ttl`). -/
inductive Cmd where
  | setEx (key : String) (seconds : Int) (value : String)
  | setPlain (key : String) (value : String)
  | getCmd (key : String)
  | delCmd (key : String)
  | existsCmd (key : String)
  | expireCmd (key : String) (seconds : Int)
  | ttlCmd (key : String)
deriving Repr, DecidableEq

/-- Whether a command is the combined write-with-expiration command
(`setEx`). -/
def Cmd.isSetEx : Cmd → Bool
  | .setEx _ _ _ => true
  | _ => false

/-- The operation names used in the service's log messages. -/
inductive OpName where
  | setOp
  | getOp
  | delOp
  | existsOp
  | expireOp
  | ttlOp
deriving Repr, DecidableEq

/-- The log events the service emits, in structured form.  `skipDebug`
is the `logger.debug` "Redis not available, skipping ... for key" message;
`opFail` is the `logger.error` "Failed to ... key ...: msg" message. -/
inductive LogEvent where
  | disabledWarn
  | connectedNotice
  | connectFailWarn (msg : String)
  | proceedWithoutRedisWarn
  | closedGracefully
  | closeErrorLog
  | skipDebug (op : OpName) (key : String)
  | opFail (op : OpName) (key : String) (msg : String)
deriving Repr, DecidableEq

/-- The lifecycle actions `onModuleInit` / `onModuleDestroy` can perform on
the transport: constructing a client, `connect`, `disconnect`, `quit`. -/
inductive Action where
  | createClient (url : String)
  | connectAttempt
  | disconnectCall
  | quitCall
deriving Repr, DecidableEq

/-- Whether a lifecycle action constructs a client handle. -/
def Action.isCreateClient : Action → Bool
  | .createClient _ => true
  | _ => false

/-- The `redis` client library as the service uses it: one method per
command, each taking the backend state and returning either an error
(a rejected promise) or a reply together with the new backend state. -/
structure Transport (σ : Type) where
  setEx : σ → String → Int → String → Except String (Unit × σ)
  setPlain : σ → String → String → Except String (Unit × σ)
  getVal : σ → String → Except String (Option String × σ)
  delKey : σ → String → Except String (Int × σ)
  existsKey : σ → String → Except String (Int × σ)
  expireKey : σ → String → Int → Except String (Bool × σ)
  ttlKey : σ → String → Except String (Int × σ)

/-- The observable outcome of one service operation: its return value,
the service state after the call, the backend state after the call, the
transport commands issued, and the log events emitted. -/
structure OpResult (α σ : Type) where
  result : α
  state : RedisState
  store : σ
  cmds : List Cmd
  logs : List LogEvent

/-- `isConnected(): boolean` — `this.client?.isOpen ?? false`. -/
def RedisService.isConnected (st : RedisState) : Bool :=
  match st.client with
  | some c => c.isOpen
  | none => false

/-- The guard `!this.client || !this.isConnected()` shared by every
operation. -/
def RedisService.unavailable (st : RedisState) : Bool :=
  st.client.isNone || !(RedisService.isConnected st)

/-- `set(key, value, ttl?)`: if unavailable, log a debug skip and return
`false`; otherwise issue `setEx(key, ttl, value)` when `ttl` is truthy
(present and nonzero) and `set(key, value)` otherwise, returning `true`
on success and `false` (with an error log) when the command rejects. -/
def RedisService.set {σ : Type} (tr : Transport σ) (st : RedisState) (s : σ)
    (key value : String) (ttl : Option Int) : OpResult Bool σ :=
  if RedisService.unavailable st then
    { result := false, state := st, store := s, cmds := [],
      logs := [.skipDebug .setOp key] }
  else
    match ttl with
    | some t =>
      if t != 0 then
        match tr.setEx s key t value with
        | .ok (_, s2) =>
            { result := true, state := st, store := s2,
              cmds := [.setEx key t value], logs := [] }
        | .error m =>
            { result := false, state := st, store := s,
              cmds := [.setEx key t value], logs := [.opFail .setOp key m] }
      else
        match tr.setPlain s key value with
        | .ok (_, s2) =>
            { result := true, state := st, store := s2,
              cmds := [.setPlain key value], logs := [] }
        | .error m =>
            { result := false, state := st, store := s,
              cmds := [.setPlain key value], logs := [.opFail .setOp key m] }
    | none =>
      match tr.setPlain s key value with
      | .ok (_, s2) =>
          { result := true, state := st, store := s2,
            cmds := [.setPlain key value], logs := [] }
      | .error m =>
          { result := false, state := st, store := s,
            cmds := [.setPlain key value], logs := [.opFail .setOp key m] }

/-- `get(key)`: if unavailable, log a debug skip and return `null`;
otherwise return the client's reply, or `null` (with an error log) when
the command rejects. -/
def RedisService.get {σ : Type} (tr : Transport σ) (st : RedisState) (s : σ)
    (key : String) : OpResult (Option String) σ :=
  if RedisService.unavailable st then
    { result := none, state := st, store := s, cmds := [],
      logs := [.skipDebug .getOp key] }
  else
    match tr.getVal s key with
    | .ok (v, s2) =>
        { result := v, state := st, store := s2,
          cmds := [.getCmd key], logs := [] }
    | .error m =>
        { result := none, state := st, store := s,
          cmds := [.getCmd key], logs := [.opFail .getOp key m] }

/-- `del(key)`: if unavailable, log a debug skip and return `false`;
otherwise issue `del(key)` and return `true` on success (the deletion
count is discarded) and `false` (with an error log) when it rejects. -/
def RedisService.del {σ : Type} (tr : Transport σ) (st : RedisState) (s : σ)
    (key : String) : OpResult Bool σ :=
  if RedisService.unavailable st then
    { result := false, state := st, store := s, cmds := [],
      logs := [.skipDebug .delOp key] }
  else
    match tr.delKey s key with
    | .ok (_, s2) =>
        { result := true, state := st, store := s2,
          cmds := [.delCmd key], logs := [] }
    | .error m =>
        { result := false, state := st, store := s,
          cmds := [.delCmd key], logs := [.opFail .delOp key m] }

/-- `exists(key)`: if unavailable, return `false` (no debug log in the
source); otherwise return whether the client reports `1`, and `false`
(with an error log) when the command rejects. -/
def RedisService.existsKey {σ : Type} (tr : Transport σ) (st : RedisState)
    (s : σ) (key : String) : OpResult Bool σ :=
  if RedisService.unavailable st then
    { result := false, state := st, store := s, cmds := [], logs := [] }
  else
    match tr.existsKey s key with
    | .ok (n, s2) =>
        { result := n == 1, state := st, store := s2,
          cmds := [.existsCmd key], logs := [] }
    | .error m =>
        { result := false, state := st, store := s,
          cmds := [.existsCmd key], logs := [.opFail .existsOp key m] }

/-- `expire(key, seconds)`: if unavailable, return `false`; otherwise
issue `expire(key, seconds)` and return `true` on success (the client's
boolean reply is discarded) and `false` (with an error log) when it
rejects. -/
def RedisService.expire {σ : Type} (tr : Transport σ) (st : RedisState)
    (s : σ) (key : String) (seconds : Int) : OpResult Bool σ :=
  if RedisService.unavailable st then
    { result := false, state := st, store := s, cmds := [], logs := [] }
  else
    match tr.expireKey s key seconds with
    | .ok (_, s2) =>
        { result := true, state := st, store := s2,
          cmds := [.expireCmd key seconds], logs := [] }
    | .error m =>
        { result := false, state := st, store := s,
          cmds := [.expireCmd key seconds], logs := [.opFail .expireOp key m] }

/-- `ttl(key)`: if unavailable, return `-2`; otherwise return the
client's reply unchanged, and `-2` (with an error log) when the command
rejects. -/
def RedisService.ttl {σ : Type} (tr : Transport σ) (st : RedisState) (s : σ)
    (key : String) : OpResult Int σ :=
  if RedisService.unavailable st then
    { result := -2, state := st, store := s, cmds := [], logs := [] }
  else
    match tr.ttlKey s key with
    | .ok (n, s2) =>
        { result := n, state := st, store := s2,
          cmds := [.ttlCmd key], logs := [] }
    | .error m =>
        { result := -2, state := st, store := s,
          cmds := [.ttlCmd key], logs := [.opFail .ttlOp key m] }

/-- The two configuration values `onModuleInit` reads:
`DISABLE_REDIS` and `REDIS_URL` (each possibly unset). -/
structure InitArgs where
  disableRedis : Option String
  redisUrl : Option String
deriving Repr, DecidableEq

/-- The outcomes of the fallible transport calls during `onModuleInit`:
the result of racing `client.connect()` against the 5-second timeout
(a timeout surfaces as `.error "Redis connection timeout"`), and the
result of the cleanup `client.disconnect()` (whose error is ignored). -/
structure InitOutcomes where
  connectOutcome : Except String Unit
  disconnectOutcome : Except String Unit
deriving Repr

/-- The observable outcome of `onModuleInit` / `onModuleDestroy`: the
resulting service state, the lifecycle actions performed, and the log
events emitted. -/
structure LifecycleResult where
  state : RedisState
  actions : List Action
  logs : List LogEvent
deriving Repr, DecidableEq

/-- `disableRedis === 'true' || disableRedis === '1'`. -/
def disableTruthy (d : Option String) : Bool :=
  d == some "true" || d == some "1"

/-- `this.configService.get('REDIS_URL') || 'redis://localhost:6379'`:
an unset or empty (falsy) configuration value yields the default. -/
def resolveUrl (cfg : Option String) : String :=
  match cfg with
  | some s => if s = "" then "redis://localhost:6379" else s
  | none => "redis://localhost:6379"

/-- The `try` block of `onModuleInit` (lines 24-66): assign
`this.client = createClient(...)`, then race `connect()` against the
timeout.  Returns the client field as assigned so far, the actions
performed, the logs emitted, and whether the block completed or threw. -/
def initTryBody (url : String) (oc : InitOutcomes) :
    Option Client × List Action × List LogEvent × Except String Unit :=
  let cl : Option Client := some { isOpen := false }
  match oc.connectOutcome with
  | .ok _ =>
      (some { isOpen := true }, [.createClient url, .connectAttempt],
       [.connectedNotice], .ok ())
  | .error m =>
      (cl, [.createClient url, .connectAttempt], [], .error m)

/-- `async onModuleInit()`: read the two configuration values; if the
disable flag is `'true'` or `'1'`, log a notice and return without ever
constructing a client; otherwise run the `try` block, and on its failure
run the `catch` block: log two warnings, and if a client was assigned,
call `disconnect()` (ignoring its error) and set the field to `null`.
The whole body is wrapped in `try`/`catch`, so the method always
resolves (`.ok`); the `Except` return type records that an uncaught
throw would surface as a rejected promise. -/
def RedisService.onModuleInit (args : InitArgs) (oc : InitOutcomes) :
    Except String LifecycleResult :=
  let url := resolveUrl args.redisUrl
  if disableTruthy args.disableRedis then
    .ok { state := { client := none, isConnecting := false },
          actions := [], logs := [.disabledWarn] }
  else
    match initTryBody url oc with
    | (cl, acts, lgs, .ok _) =>
        .ok { state := { client := cl, isConnecting := false },
              actions := acts, logs := lgs }
    | (cl, acts, lgs, .error m) =>
        match cl with
        | some _ =>
            let _ : Unit :=
              match oc.disconnectOutcome with
              | .ok u => u
              | .error _ => ()
            .ok { state := { client := none, isConnecting := false },
                  actions := acts ++ [.disconnectCall],
                  logs := lgs ++ [.connectFailWarn m, .proceedWithoutRedisWarn] }
        | none =>
            .ok { state := { client := none, isConnecting := false },
                  actions := acts,
                  logs := lgs ++ [.connectFailWarn m, .proceedWithoutRedisWarn] }

/-- `async onModuleDestroy()`: if a client is present, call `quit()`
inside a `try`/`catch`, logging success or failure; the client field is
not modified.  If no client is present, do nothing. -/
def RedisService.onModuleDestroy (st : RedisState)
    (quitOutcome : Except String Unit) : Except String LifecycleResult :=
  match st.client with
  | none => .ok { state := st, actions := [], logs := [] }
  | some _ =>
      match quitOutcome with
      | .ok _ =>
          .ok { state := st, actions := [.quitCall],
                logs := [.closedGracefully] }
      | .error _ =>
          .ok { state := st, actions := [.quitCall],
                logs := [.closeErrorLog] }

/-- Modelled from the spec: the lifecycle states of §4.1
(`Disabled`, `Connecting`, `Connected`, `Unavailable`). -/
inductive FacadeState where
  | Disabled
  | Connecting
  | Connected
  | Unavailable
deriving Repr, DecidableEq

/-- Modelled from the spec: the facade's effective state after startup —
`Disabled` when the disable flag was truthy, otherwise `Connected` when
the handle is present and open and `Unavailable` when it is absent or
closed. -/
def facadeStateOf (disabledFlag : Bool) (st : RedisState) : FacadeState :=
  if disabledFlag then .Disabled
  else if RedisService.isConnected st then .Connected
  else .Unavailable

/-- A stored value together with its remaining time-to-live
(`none` = no expiration set). -/
structure Entry where
  value : String
  expiry : Option Int
deriving Repr, DecidableEq

/-- A backend key-value store: an association list from keys to entries. -/
abbrev Store := List (String × Entry)

/-- Remove a key from the store. -/
def storeRemove (s : Store) (k : String) : Store :=
  s.filter (fun p => !(p.1 == k))

/-- Insert (or overwrite) a key in the store. -/
def storeInsert (s : Store) (k : String) (e : Entry) : Store :=
  (k, e) :: storeRemove s k

/-- Look a key up in the store. -/
def storeFind (s : Store) (k : String) : Option Entry :=
  s.lookup k

/-- Modelled from the spec: the external cache transport (the `redis`
client library, a black box per §1/§6) interpreted over an in-memory
store with standard backend semantics — `set` writes without expiration,
`setEx` writes with expiration, `get` returns the value or absent,
`del` returns the deletion count, `exists` returns 0/1, `expire` returns
whether the key existed, `ttl` returns the remaining seconds, `-1` for
no expiration and `-2` for a missing key.  Every command succeeds. -/
def storeTransport : Transport Store where
  setEx := fun s k t v => .ok ((), storeInsert s k { value := v, expiry := some t })
  setPlain := fun s k v => .ok ((), storeInsert s k { value := v, expiry := none })
  getVal := fun s k => .ok ((storeFind s k).map (fun e => e.value), s)
  delKey := fun s k =>
    .ok ((if (storeFind s k).isSome then 1 else 0 : Int), storeRemove s k)
  existsKey := fun s k =>
    .ok ((if (storeFind s k).isSome then 1 else 0 : Int), s)
  expireKey := fun s k t =>
    match storeFind s k with
    | some e => .ok (true, storeInsert s k { value := e.value, expiry := some t })
    | none => .ok (false, s)
  ttlKey := fun s k =>
    .ok ((match storeFind s k with
          | none => -2
          | some e =>
            match e.expiry with
            | none => -1
            | some t => t : Int), s)

/-- A transport on which every command rejects with message `m`,
used to exercise the error-handling paths. -/
def failTransport (m : String) : Transport Unit where
  setEx := fun _ _ _ _ => .error m
  setPlain := fun _ _ _ => .error m
  getVal := fun _ _ => .error m
  delKey := fun _ _ => .error m
  existsKey := fun _ _ => .error m
  expireKey := fun _ _ _ => .error m
  ttlKey := fun _ _ => .error m

/-- A service state whose handle is present and open. -/
def connState : RedisState := { client := some { isOpen := true }, isConnecting := false }

/-- A service state with no handle. -/
def noneState : RedisState := { client := none, isConnecting := false }

/-- A service state whose handle is present but reports itself closed. -/
def closedState : RedisState := { client := some { isOpen := false }, isConnecting := false }

/-- If the handle is absent or reports itself not open, the shared guard
fires. -/
theorem unavailable_of {st : RedisState}
    (h : st.client = none ∨ RedisService.isConnected st = false) :
    RedisService.unavailable st = true := by
  rcases h with h | h
  · simp [RedisService.unavailable, h]
  · simp [RedisService.unavailable, h]

/-- If the handle reports itself open, the shared guard does not fire. -/
theorem available_of {st : RedisState}
    (h : RedisService.isConnected st = true) :
    RedisService.unavailable st = false := by
  unfold RedisService.unavailable
  cases hc : st.client with
  | none => simp [RedisService.isConnected, hc] at h
  | some c =>
      simp only [RedisService.isConnected, hc] at h
      simp [RedisService.isConnected, hc, h]

/-- Looking up a key right after inserting it finds the inserted entry. -/
theorem storeFind_insert (s : Store) (k : String) (e : Entry) :
    storeFind (storeInsert s k e) k = some e := by
  simp [storeFind, storeInsert, List.lookup]

/-- Claim C1: if the client handle is absent or reports itself not open,
every operation returns its defined unavailable result (`set` → false,
`get` → absent, `del` → false, `exists` → false, `expire` → false,
`ttl` → -2) and issues no transport command. -/
theorem guard_unavailable_results {σ : Type} (tr : Transport σ)
    (st : RedisState) (s : σ) (key value : String) (t : Option Int)
    (seconds : Int)
    (h : st.client = none ∨ RedisService.isConnected st = false) :
    ((RedisService.set tr st s key value t).result = false ∧
      (RedisService.set tr st s key value t).cmds = []) ∧
    ((RedisService.get tr st s key).result = none ∧
      (RedisService.get tr st s key).cmds = []) ∧
    ((RedisService.del tr st s key).result = false ∧
      (RedisService.del tr st s key).cmds = []) ∧
    ((RedisService.existsKey tr st s key).result = false ∧
      (RedisService.existsKey tr st s key).cmds = []) ∧
    ((RedisService.expire tr st s key seconds).result = false ∧
      (RedisService.expire tr st s key seconds).cmds = []) ∧
    ((RedisService.ttl tr st s key).result = -2 ∧
      (RedisService.ttl tr st s key).cmds = []) := by
  have hu := unavailable_of h
  refine ⟨⟨?_, ?_⟩, ⟨?_, ?_⟩, ⟨?_, ?_⟩, ⟨?_, ?_⟩, ⟨?_, ?_⟩, ?_, ?_⟩ <;>
    simp [RedisService.set, RedisService.get, RedisService.del,
      RedisService.existsKey, RedisService.expire, RedisService.ttl, hu]

/-- Concrete instance of `guard_unavailable_results`: with no handle,
`set` returns false and issues no command. -/
theorem guard_unavailable_results_witness :
    (RedisService.set (failTransport "e") noneState () "k" "v" none).result = false ∧
    (RedisService.set (failTransport "e") noneState () "k" "v" none).cmds = [] :=
  (guard_unavailable_results (failTransport "e") noneState () "k" "v" none 0
    (Or.inl rfl)).1

/-- Claim C2: when the guard passes, any error raised by the underlying
transport command is caught and converted to the operation's unavailable
result (false, absent, or -2), never propagated, and logged with the key
and the operation name. -/
theorem transport_error_absorbed {σ : Type} (tr : Transport σ)
    (st : RedisState) (s : σ) (e : String) (key value : String)
    (t seconds : Int) (h : RedisService.isConnected st = true) :
    (tr.setEx s key t value = .error e → t ≠ 0 →
      (RedisService.set tr st s key value (some t)).result = false ∧
      (RedisService.set tr st s key value (some t)).logs =
        [.opFail .setOp key e]) ∧
    (tr.setPlain s key value = .error e →
      (RedisService.set tr st s key value none).result = false ∧
      (RedisService.set tr st s key value none).logs =
        [.opFail .setOp key e]) ∧
    (tr.getVal s key = .error e →
      (RedisService.get tr st s key).result = none ∧
      (RedisService.get tr st s key).logs = [.opFail .getOp key e]) ∧
    (tr.delKey s key = .error e →
      (RedisService.del tr st s key).result = false ∧
      (RedisService.del tr st s key).logs = [.opFail .delOp key e]) ∧
    (tr.existsKey s key = .error e →
      (RedisService.existsKey tr st s key).result = false ∧
      (RedisService.existsKey tr st s key).logs = [.opFail .existsOp key e]) ∧
    (tr.expireKey s key seconds = .error e →
      (RedisService.expire tr st s key seconds).result = false ∧
      (RedisService.expire tr st s key seconds).logs =
        [.opFail .expireOp key e]) ∧
    (tr.ttlKey s key = .error e →
      (RedisService.ttl tr st s key).result = -2 ∧
      (RedisService.ttl tr st s key).logs = [.opFail .ttlOp key e]) := by
  have ha := available_of h
  refine ⟨fun he ht => ?_, fun he => ?_, fun he => ?_, fun he => ?_,
    fun he => ?_, fun he => ?_, fun he => ?_⟩ <;>
    simp_all [RedisService.set, RedisService.get, RedisService.del,
      RedisService.existsKey, RedisService.expire, RedisService.ttl]

/-- Concrete instance of `transport_error_absorbed`: with an open handle
and a transport whose `get` rejects, `get` returns absent and logs the
failure with the key and the operation name. -/
theorem transport_error_absorbed_witness :
    (RedisService.get (failTransport "boom") connState () "k").result = none ∧
    (RedisService.get (failTransport "boom") connState () "k").logs =
      [.opFail .getOp "k" "boom"] :=
  (transport_error_absorbed (failTransport "boom") connState () "boom"
    "k" "v" 1 1 rfl).2.2.1 rfl

/-- Claim C3: if the connect attempt during startup fails or times out,
`onModuleInit` still resolves (no throw): the partially-constructed
handle is released via `disconnect` (whatever that release's own outcome
is), the client field ends absent, the facade ends `Unavailable`, and
warnings are logged, including the one stating the system proceeds
without the cache. -/
theorem connect_failure_recovers (args : InitArgs) (oc : InitOutcomes)
    (m : String) (hflag : disableTruthy args.disableRedis = false)
    (hconn : oc.connectOutcome = .error m) :
    RedisService.onModuleInit args oc =
      .ok { state := { client := none, isConnecting := false },
            actions := [.createClient (resolveUrl args.redisUrl),
              .connectAttempt, .disconnectCall],
            logs := [.connectFailWarn m, .proceedWithoutRedisWarn] } ∧
    facadeStateOf (disableTruthy args.disableRedis)
      { client := none, isConnecting := false } = .Unavailable := by
  constructor
  · simp [RedisService.onModuleInit, hflag, initTryBody, hconn]
  · simp [facadeStateOf, hflag, RedisService.isConnected]

/-- Concrete instance of `connect_failure_recovers`: a timed-out connect
with a failing cleanup release still resolves, releases the handle and
ends with no client. -/
theorem connect_failure_recovers_witness :
    RedisService.onModuleInit { disableRedis := none, redisUrl := none }
        { connectOutcome := .error "Redis connection timeout",
          disconnectOutcome := .error "already closed" } =
      .ok { state := { client := none, isConnecting := false },
            actions := [.createClient "redis://localhost:6379",
              .connectAttempt, .disconnectCall],
            logs := [.connectFailWarn "Redis connection timeout",
              .proceedWithoutRedisWarn] } :=
  (connect_failure_recovers { disableRedis := none, redisUrl := none }
    { connectOutcome := .error "Redis connection timeout",
      disconnectOutcome := .error "already closed" }
    "Redis connection timeout" rfl rfl).1

/-- Claim C4: `ttl` returns -2 when the cache is unavailable or (under the
store-backed transport) the key is absent, and otherwise passes the
backend's reported value through unchanged, including the backend's -1
for "no expiration set". -/
theorem ttl_semantics {σ : Type} (tr : Transport σ) (st : RedisState)
    (s : σ) (sStore : Store) (key v : String) (n : Int) (s2 : σ) :
    (st.client = none ∨ RedisService.isConnected st = false →
      (RedisService.ttl tr st s key).result = -2) ∧
    (RedisService.isConnected st = true → tr.ttlKey s key = .ok (n, s2) →
      (RedisService.ttl tr st s key).result = n) ∧
    (RedisService.isConnected st = true → storeFind sStore key = none →
      (RedisService.ttl storeTransport st sStore key).result = -2) ∧
    (RedisService.isConnected st = true →
      storeFind sStore key = some { value := v, expiry := none } →
      (RedisService.ttl storeTransport st sStore key).result = -1) := by
  refine ⟨fun h => ?_, fun h hok => ?_, fun h hfind => ?_, fun h hfind => ?_⟩
  · simp [RedisService.ttl, unavailable_of h]
  · simp [RedisService.ttl, available_of h, hok]
  · simp [RedisService.ttl, available_of h, storeTransport, hfind]
  · simp [RedisService.ttl, available_of h, storeTransport, hfind]

/-- Concrete instance of `ttl_semantics`: connected, a key with no
expiration set yields the backend's -1 unchanged. -/
theorem ttl_semantics_witness :
    (RedisService.ttl storeTransport connState
      [("k", { value := "v", expiry := none })] "k").result = -1 :=
  (ttl_semantics storeTransport connState
    [("k", { value := "v", expiry := none })]
    [("k", { value := "v", expiry := none })] "k" "v" 0
    [("k", { value := "v", expiry := none })]).2.2.2 rfl (by decide)

/-- Claim C5, counterexample: a `set` call in which a ttl argument IS
given — `ttl = 0` — issues the plain write command, not the combined
write-with-expiration command, because the source tests the ttl with a
JavaScript truthiness check (`if (ttl)`) under which 0 is falsy. -/
theorem set_zero_ttl_plain_write :
    (RedisService.set storeTransport connState [] "k" "v" (some 0)).cmds =
      [Cmd.setPlain "k" "v"] ∧
    ((RedisService.set storeTransport connState [] "k" "v"
      (some 0)).cmds.all fun c => !(Cmd.isSetEx c)) = true := by
  constructor
  · rfl
  · rfl

/-- Claim C5 (amended): when connected, a `set` call with a NONZERO ttl
argument issues exactly the single combined `setEx` command (never a
separate expiration call after a plain write), while a call with no ttl
argument, or with ttl 0 (falsy under the source's truthiness check),
issues exactly the single plain write command. -/
theorem set_ttl_command_shape {σ : Type} (tr : Transport σ)
    (st : RedisState) (s : σ) (key value : String) (t : Int)
    (h : RedisService.isConnected st = true) :
    (t ≠ 0 → (RedisService.set tr st s key value (some t)).cmds =
      [Cmd.setEx key t value]) ∧
    (RedisService.set tr st s key value (some 0)).cmds =
      [Cmd.setPlain key value] ∧
    (RedisService.set tr st s key value none).cmds =
      [Cmd.setPlain key value] := by
  have ha := available_of h
  refine ⟨fun ht => ?_, ?_, ?_⟩
  · rcases he : tr.setEx s key t value with _ | _ <;>
      simp_all [RedisService.set]
  · rcases he : tr.setPlain s key value with _ | _ <;>
      simp_all [RedisService.set]
  · rcases he : tr.setPlain s key value with _ | _ <;>
      simp_all [RedisService.set]

/-- Concrete instance of `set_ttl_command_shape`: a connected `set` with
ttl 5 issues exactly the one combined `setEx` command. -/
theorem set_ttl_command_shape_witness :
    (RedisService.set storeTransport connState [] "k" "v" (some 5)).cmds =
      [Cmd.setEx "k" 5 "v"] :=
  (set_ttl_command_shape storeTransport connState [] "k" "v" 5 rfl).1
    (by decide)

/-- Claim C6, counterexample: with the disable flag absent and the
endpooint configuration explicitly set to the empty string, startup uses
the default local address, not the explicit configuration value, because
the source resolves the endpoint with a JavaScript falsiness check
(`cfg || default`) under which the empty string is falsy. -/
theorem empty_url_uses_default :
    RedisService.onModuleInit { disableRedis := none, redisUrl := some "" }
        { connectOutcome := .ok (), disconnectOutcome := .ok () } =
      .ok { state := { client := some { isOpen := true }, isConnecting := false },
            actions := [.createClient "redis://localhost:6379", .connectAttempt],
            logs := [.connectedNotice] } ∧
    ((RedisService.onModuleInit { disableRedis := none, redisUrl := some "" }
        { connectOutcome := .ok (), disconnectOutcome := .ok () }).map
      fun r => r.actions.contains (.createClient "")) = .ok false := by
  constructor
  · rfl
  · rfl

/-- Claim C6 (amended): startup with the disable flag `"true"` or `"1"`
never constructs a handle nor attempts a connection and ends in the
terminal `Disabled` state; startup with any other flag value (absent
included) constructs the handle on the resolved endpoint — the explicit
NON-EMPTY configuration value, else the default local address — and
attempts a connection. -/
theorem disable_flag_gates_connection (args : InitArgs) (oc : InitOutcomes)
    (url : Option String) (u : String)
    (hflag : disableTruthy args.disableRedis = false) :
    (RedisService.onModuleInit { disableRedis := some "true", redisUrl := url }
        oc =
      .ok { state := { client := none, isConnecting := false },
            actions := [], logs := [.disabledWarn] }) ∧
    (RedisService.onModuleInit { disableRedis := some "1", redisUrl := url }
        oc =
      .ok { state := { client := none, isConnecting := false },
            actions := [], logs := [.disabledWarn] }) ∧
    facadeStateOf (disableTruthy (some "true"))
      { client := none, isConnecting := false } = .Disabled ∧
    (∃ r rest, RedisService.onModuleInit args oc = .ok r ∧
      r.actions = .createClient (resolveUrl args.redisUrl) ::
        .connectAttempt :: rest) ∧
    resolveUrl none = "redis://localhost:6379" ∧
    resolveUrl (some "") = "redis://localhost:6379" ∧
    (u ≠ "" → resolveUrl (some u) = u) := by
  refine ⟨?_, ?_, ?_, ?_, rfl, rfl, fun hu => ?_⟩
  · simp [RedisService.onModuleInit, disableTruthy]
  · simp [RedisService.onModuleInit, disableTruthy]
  · rfl
  · rcases hc : oc.connectOutcome with m | _
    · refine ⟨{ state := { client := none, isConnecting := false },
                actions := [.createClient (resolveUrl args.redisUrl),
                  .connectAttempt, .disconnectCall],
                logs := [.connectFailWarn m, .proceedWithoutRedisWarn] },
        [.disconnectCall], ?_, rfl⟩
      simp [RedisService.onModuleInit, hflag, initTryBody, hc]
    · refine ⟨{ state := { client := some { isOpen := true },
                           isConnecting := false },
                actions := [.createClient (resolveUrl args.redisUrl),
                  .connectAttempt],
                logs := [.connectedNotice] }, [], ?_, rfl⟩
      simp [RedisService.onModuleInit, hflag, initTryBody, hc]
  · simp [resolveUrl, hu]

/-- Concrete instance of `disable_flag_gates_connection`: with the flag
absent, startup constructs the client and attempts the connection. -/
theorem disable_flag_gates_connection_witness :
    ∃ r rest,
      RedisService.onModuleInit { disableRedis := none, redisUrl := none }
          { connectOutcome := .ok (), disconnectOutcome := .ok () } = .ok r ∧
      r.actions = .createClient "redis://localhost:6379" ::
        .connectAttempt :: rest :=
  (disable_flag_gates_connection { disableRedis := none, redisUrl := none }
    { connectOutcome := .ok (), disconnectOutcome := .ok () } none "u"
    rfl).2.2.2.1

/-- Claim C7: when connected, `set(key, value)` followed immediately by
`get(key)` over the store-backed transport returns the value; when not
connected, `set` leaves the backend untouched and `get` returns absent
on any store. -/
theorem set_get_roundtrip (st : RedisState) (s : Store)
    (key value : String) :
    (RedisService.isConnected st = true →
      (RedisService.get storeTransport
        (RedisService.set storeTransport st s key value none).state
        (RedisService.set storeTransport st s key value none).store
        key).result = some value) ∧
    (RedisService.isConnected st = false →
      (∀ t, (RedisService.set storeTransport st s key value t).store = s) ∧
      ∀ s2 : Store, (RedisService.get storeTransport st s2 key).result = none) := by
  constructor
  · intro h
    have ha := available_of h
    simp [RedisService.set, RedisService.get, ha, storeTransport,
      storeFind_insert]
  · intro h
    have hu := unavailable_of (Or.inr h)
    exact ⟨fun t => by simp [RedisService.set, hu],
      fun s2 => by simp [RedisService.get, hu]⟩

/-- Concrete instance of `set_get_roundtrip`: on an open handle,
writing "v" under "k" and reading "k" back yields "v". -/
theorem set_get_roundtrip_witness :
    (RedisService.get storeTransport
      (RedisService.set storeTransport connState [] "k" "v" none).state
      (RedisService.set storeTransport connState [] "k" "v" none).store
      "k").result = some "v" :=
  (set_get_roundtrip connState [] "k" "v").1 rfl

/-- Claim C8: with a handle present, `onModuleDestroy` performs the
graceful `quit` (never the abrupt `disconnect`), and an error during the
close is logged while the method still resolves; with no handle it is a
no-op. -/
theorem destroy_graceful (st : RedisState) (m : String) :
    (st.client.isSome = true →
      RedisService.onModuleDestroy st (.ok ()) =
        .ok { state := st, actions := [.quitCall],
              logs := [.closedGracefully] }) ∧
    (st.client.isSome = true →
      RedisService.onModuleDestroy st (.error m) =
        .ok { state := st, actions := [.quitCall],
              logs := [.closeErrorLog] }) ∧
    (st.client = none → ∀ q,
      RedisService.onModuleDestroy st q =
        .ok { state := st, actions := [], logs := [] }) := by
  rcases hc : st.client with _ | c
  · exact ⟨fun h => by simp [hc] at h, fun h => by simp [hc] at h,
      fun _ q => by simp [RedisService.onModuleDestroy, hc]⟩
  · exact ⟨fun _ => by simp [RedisService.onModuleDestroy, hc],
      fun _ => by simp [RedisService.onModuleDestroy, hc],
      fun h => by simp [hc] at h⟩

/-- Concrete instance of `destroy_graceful`: a failing `quit` on an open
handle still resolves, logging the close error. -/
theorem destroy_graceful_witness :
    RedisService.onModuleDestroy connState (.error "broken pipe") =
      .ok { state := connState, actions := [.quitCall],
            logs := [.closeErrorLog] } :=
  (destroy_graceful connState "broken pipe").2.1 rfl

/-- Claim C9: the handle field is created at most once, during
`onModuleInit`; every operation leaves the whole service state (the
handle field included) unchanged; and `onModuleDestroy` leaves the
service state unchanged as well. -/
theorem handle_frame {σ : Type} (tr : Transport σ) (st : RedisState)
    (s : σ) (key value : String) (t : Option Int) (seconds : Int)
    (args : InitArgs) (oc : InitOutcomes) (q : Except String Unit) :
    (RedisService.set tr st s key value t).state = st ∧
    (RedisService.get tr st s key).state = st ∧
    (RedisService.del tr st s key).state = st ∧
    (RedisService.existsKey tr st s key).state = st ∧
    (RedisService.expire tr st s key seconds).state = st ∧
    (RedisService.ttl tr st s key).state = st ∧
    (∀ r, RedisService.onModuleInit args oc = .ok r →
      (r.actions.filter fun a => a.isCreateClient).length ≤ 1) ∧
    (∀ r2, RedisService.onModuleDestroy st q = .ok r2 → r2.state = st) := by
  refine ⟨?_, ?_, ?_, ?_, ?_, ?_, ?_, ?_⟩
  · unfold RedisService.set
    repeat' split
    all_goals rfl
  · unfold RedisService.get
    repeat' split
    all_goals rfl
  · unfold RedisService.del
    repeat' split
    all_goals rfl
  · unfold RedisService.existsKey
    repeat' split
    all_goals rfl
  · unfold RedisService.expire
    repeat' split
    all_goals rfl
  · unfold RedisService.ttl
    repeat' split
    all_goals rfl
  · intro r hr
    cases hd : disableTruthy args.disableRedis
    · rcases hc : oc.connectOutcome with m | _
      · simp [RedisService.onModuleInit, hd, hc, initTryBody] at hr
        rw [← hr]
        simp [Action.isCreateClient, List.filter]
      · simp [RedisService.onModuleInit, hd, hc, initTryBody] at hr
        rw [← hr]
        simp [Action.isCreateClient, List.filter]
    · simp [RedisService.onModuleInit, hd] at hr
      rw [← hr]
      simp
  · intro r2 h2
    rcases hc : st.client with _ | c
    · simp [RedisService.onModuleDestroy, hc] at h2
      rw [← h2]
    · rcases hq : q with mq | _
      · simp [RedisService.onModuleDestroy, hc, hq] at h2
        rw [← h2]
      · simp [RedisService.onModuleDestroy, hc, hq] at h2
        rw [← h2]

/-- Concrete instance of `handle_frame`: a successful startup performs
exactly one client construction. -/
theorem handle_frame_witness :
    (({ state := { client := some { isOpen := true }, isConnecting := false },
        actions := [.createClient "redis://localhost:6379", .connectAttempt],
        logs := [.connectedNotice] } : LifecycleResult).actions.filter
      fun a => a.isCreateClient).length ≤ 1 :=
  (handle_frame (failTransport "e") connState () "k" "v" none 0
    { disableRedis := none, redisUrl := none }
    { connectOutcome := .ok (), disconnectOutcome := .ok () }
    (.ok ())).2.2.2.2.2.2.1
    { state := { client := some { isOpen := true }, isConnecting := false },
      actions := [.createClient "redis://localhost:6379", .connectAttempt],
      logs := [.connectedNotice] } rfl

/-- Claim C10: when connected, `del` and `expire` return true whenever
the transport command succeeds, discarding the backend's reported
deletion count / boolean; in particular, on the store-backed transport
both return true on a non-existent key. -/
theorem del_expire_discard_reply {σ : Type} (tr : Transport σ)
    (st : RedisState) (s : σ) (sStore : Store) (key : String)
    (n : Int) (b : Bool) (s2 s3 : σ) (seconds : Int) :
    (RedisService.isConnected st = true → tr.delKey s key = .ok (n, s2) →
      (RedisService.del tr st s key).result = true) ∧
    (RedisService.isConnected st = true →
      tr.expireKey s key seconds = .ok (b, s3) →
      (RedisService.expire tr st s key seconds).result = true) ∧
    (RedisService.isConnected st = true → storeFind sStore key = none →
      (RedisService.del storeTransport st sStore key).result = true ∧
      (RedisService.expire storeTransport st sStore key seconds).result =
        true) := by
  refine ⟨fun h hok => ?_, fun h hok => ?_, fun h hfind => ⟨?_, ?_⟩⟩
  · simp [RedisService.del, available_of h, hok]
  · simp [RedisService.expire, available_of h, hok]
  · simp [RedisService.del, available_of h, storeTransport]
  · simp [RedisService.expire, available_of h, storeTransport, hfind]

/-- Concrete instance of `del_expire_discard_reply`: connected, deleting
and expiring a key absent from the store both return true. -/
theorem del_expire_discard_reply_witness :
    (RedisService.del storeTransport connState [] "k").result = true ∧
    (RedisService.expire storeTransport connState [] "k" 9).result = true :=
  (del_expire_discard_reply (failTransport "e") connState () [] "k"
    0 false () () 9).2.2 rfl rfl

end Rental
